import Mathlib

/-!
Verification of the PhotoVault photo-album application.

The data layer is a SQL migration
(`supabase/migrations/20260227045417_*.sql`) declaring two tables
(`public.profiles`, `public.photos`) with row-level-security policies, a
storage bucket `photos` with object policies, and a `SECURITY DEFINER`
trigger `handle_new_user` that auto-provisions a profile on user creation.
The client (`src/pages/Auth.tsx`, the `Gallery` component) implements
`fetchPhotos`, `uploadFile` and `deletePhoto` against that layer.

This file shallowly embeds both layers: the policies as predicate lists
evaluated with permissive-OR / default-deny semantics, the trigger as a
transactional state transformer, and the client operations as functions
from their inputs and the outcomes of the backend calls to the sequence of
backend actions issued and the resulting client/server state.
-/

namespace PhotoVault

/-- The SQL operations row-level-security policies can be declared `FOR`. -/
inductive Op where
  | select
  | insert
  | update
  | delete
deriving DecidableEq, BEq

instance : LawfulBEq Op where
  eq_of_beq := by intro a b h; cases a <;> cases b <;> first | rfl | exact absurd h (by decide)
  rfl := by intro a; cases a <;> rfl

/-- A row of `public.profiles`:
`id UUID PK, user_id UUID UNIQUE NOT NULL, email TEXT, created_at`. -/
structure ProfileRow where
  id : String
  user_id : String
  email : Option String
  created_at : Nat
deriving DecidableEq

/-- A row of `public.photos`:
`id UUID PK, user_id UUID NOT NULL, file_name TEXT NOT NULL,
file_path TEXT NOT NULL, file_size BIGINT, created_at`. -/
structure PhotoRow where
  id : String
  user_id : String
  file_name : String
  file_path : String
  file_size : Option Nat
  created_at : Nat
deriving DecidableEq

/-- A row of `storage.objects`: the bucket it lives in and its key. -/
structure StorageObject where
  bucket_id : String
  name : String
deriving DecidableEq

/-- SQL `auth.uid() = user_id`: with no authenticated user `auth.uid()` is
NULL, the comparison is NULL, and the policy does not pass. -/
def uidEq : Option String → String → Bool
  | some u, owner => u == owner
  | none, _ => false

/-- SQL `auth.uid()::text = seg` where `seg` may be NULL (an out-of-range
array subscript): NULL on either side means the policy does not pass. -/
def uidEqText : Option String → Option String → Bool
  | some u, some s => u == s
  | _, _ => false

/-- Split a character list at every occurrence of the separator, keeping
empty components, as JavaScript `split` and SQL `string_to_array` do for a
one-character separator.  The result is never empty. -/
def splitOnChar (c : Char) : List Char → List (List Char)
  | [] => [[]]
  | a :: rest =>
    match splitOnChar c rest with
    | [] => if a == c then [[], []] else [[a]]
    | g :: gs => if a == c then [] :: g :: gs else (a :: g) :: gs

/-- Split a string on a one-character separator. -/
def splitStr (s : String) (c : Char) : List String :=
  (splitOnChar c s.data).map String.mk

/-- `storage.foldername(name)`: the path components of the key except the
final one (the file name). -/
def foldername (name : String) : List String :=
  (splitStr name '/').dropLast

/-- `(storage.foldername(name))[1]`: the first path segment of the key, or
NULL when the key has no folder part. -/
def firstFolder (name : String) : Option String :=
  (foldername name).head?

/-- One `CREATE POLICY` declaration: its name, the operation it is `FOR`,
and its `USING`/`WITH CHECK` predicate over the caller and the row. -/
structure Policy (Row : Type) where
  pname : String
  op : Op
  pred : Option String → Row → Bool

/-- Permissive-policy evaluation with row-level security enabled: an
operation on a row is allowed iff some policy declared for that operation
has a true predicate; with no matching policy the default is deny. -/
def rlsAllows {Row : Type} (policies : List (Policy Row)) (op : Op)
    (uid : Option String) (row : Row) : Bool :=
  policies.any fun p => p.op == op && p.pred uid row

/-- The three policies on `public.profiles` (migration lines 12-14).
There is no DELETE policy. -/
def profilesPolicies : List (Policy ProfileRow) :=
  [⟨"Users can view own profile", Op.select, fun uid r => uidEq uid r.user_id⟩,
   ⟨"Users can insert own profile", Op.insert, fun uid r => uidEq uid r.user_id⟩,
   ⟨"Users can update own profile", Op.update, fun uid r => uidEq uid r.user_id⟩]

/-- The three policies on `public.photos` (migration lines 46-48).
There is no UPDATE policy. -/
def photosPolicies : List (Policy PhotoRow) :=
  [⟨"Users can view own photos", Op.select, fun uid r => uidEq uid r.user_id⟩,
   ⟨"Users can insert own photos", Op.insert, fun uid r => uidEq uid r.user_id⟩,
   ⟨"Users can delete own photos", Op.delete, fun uid r => uidEq uid r.user_id⟩]

/-- The four policies on `storage.objects` (migration lines 53-56).
There is no UPDATE policy; SELECT is granted to everyone on the `photos`
bucket by the `Public can view photos` policy. -/
def storageObjectsPolicies : List (Policy StorageObject) :=
  [⟨"Users can upload own photos", Op.insert,
      fun uid o => o.bucket_id == "photos" && uidEqText uid (firstFolder o.name)⟩,
   ⟨"Users can view own photos", Op.select,
      fun uid o => o.bucket_id == "photos" && uidEqText uid (firstFolder o.name)⟩,
   ⟨"Users can delete own photos", Op.delete,
      fun uid o => o.bucket_id == "photos" && uidEqText uid (firstFolder o.name)⟩,
   ⟨"Public can view photos", Op.select,
      fun _ o => o.bucket_id == "photos"⟩]

/-! ### User creation and the `handle_new_user` trigger -/

/-- A row of `auth.users` as the trigger sees it: `NEW.id` and `NEW.email`. -/
structure AuthUser where
  id : String
  email : Option String
deriving DecidableEq

/-- The database state the migration's objects live in. -/
structure DBState where
  users : List AuthUser
  profiles : List ProfileRow
deriving DecidableEq

/-- Body of `public.handle_new_user()` (migration lines 17-28):
`INSERT INTO public.profiles (user_id, email) VALUES (NEW.id, NEW.email)`.
It runs `SECURITY DEFINER`, so no row-level-security policy is consulted.
`freshId` and `now` stand for the defaulted `id` and `created_at` columns.
The insert fails (`none`) when it would violate the UNIQUE constraint on
`profiles.user_id`. -/
def handle_new_user (profiles : List ProfileRow) (newRow : AuthUser)
    (freshId : String) (now : Nat) : Option (List ProfileRow) :=
  if profiles.any fun p => p.user_id == newRow.id then none
  else some (profiles ++ [⟨freshId, newRow.id, newRow.email, now⟩])

/-- `INSERT INTO auth.users` together with the `on_auth_user_created`
trigger (`AFTER INSERT ON auth.users FOR EACH ROW EXECUTE FUNCTION
public.handle_new_user()`, migration lines 30-32).  The trigger runs in
the inserting transaction, so a failure of the profile insert aborts the
user creation as a whole and leaves the state unchanged. -/
def createUser (db : DBState) (u : AuthUser) (profileId : String)
    (now : Nat) : Option DBState :=
  match handle_new_user db.profiles u profileId now with
  | none => none
  | some ps => some ⟨db.users ++ [u], ps⟩

/-! ### The client (`Gallery` component of `src/pages/Auth.tsx`) -/

/-- A browser `File` as the client reads it: `name`, MIME `type`, byte
`size`. -/
structure File where
  name : String
  type : String
  size : Nat
deriving DecidableEq

/-- The record the client inserts into `public.photos` on upload. -/
structure PhotoInsert where
  user_id : String
  file_name : String
  file_path : String
  file_size : Nat
deriving DecidableEq

/-- The shape of the client's `Photo` interface: `id`, `file_name`,
`file_path`, `created_at`. -/
structure ClientPhoto where
  id : String
  file_name : String
  file_path : String
  created_at : String
deriving DecidableEq

/-- A backend call the client can issue over the network. -/
inductive ClientAction where
  | storageUpload (path : String)
  | metadataInsert (rec : PhotoInsert)
  | storageRemove (path : String)
  | metadataDelete (id : String)
deriving DecidableEq

/-- How a call to `uploadFile` ended, distinguishing the two client-side
validation rejections (issued before any network call) from backend
failures. -/
inductive UploadResult where
  | noUser
  | rejectedNotImage
  | rejectedTooLarge
  | uploadFailed
  | insertFailed
  | success
deriving DecidableEq

/-- JavaScript `s.startsWith(p)`: the characters of `p` are a prefix of
the characters of `s`. -/
def strStartsWith (s p : String) : Bool :=
  p.data.isPrefixOf s.data

/-- `file.name.split(".").pop()`: the last dot-separated component of the
file name. -/
def fileExtOf (name : String) : String :=
  (splitStr name '.').getLastD ""

/-- The storage path the client generates:
`fileName = Date.now() + "." + fileExt; filePath = userId + "/" + fileName`. -/
def uploadPath (userId : String) (now : Nat) (name : String) : String :=
  userId ++ "/" ++ toString now ++ "." ++ fileExtOf name

/-- `uploadFile` (Gallery component): bail out when no user is set; reject
non-images and files over `10 * 1024 * 1024` bytes before any network
call; otherwise upload the binary to the generated path and, only when
that succeeds, insert one metadata row.  `uploadOk` and `insertOk` are the
outcomes of the two backend calls; the returned list is the sequence of
backend calls issued, in order. -/
def uploadFile (userId : Option String) (file : File) (now : Nat)
    (uploadOk insertOk : Bool) : UploadResult × List ClientAction :=
  match userId with
  | none => (UploadResult.noUser, [])
  | some uid =>
    if ¬ strStartsWith file.type "image/" then (UploadResult.rejectedNotImage, [])
    else if file.size > 10 * 1024 * 1024 then (UploadResult.rejectedTooLarge, [])
    else
      let filePath := uploadPath uid now file.name
      if uploadOk then
        let record := PhotoInsert.mk uid file.name filePath file.size
        if insertOk then
          (UploadResult.success,
           [ClientAction.storageUpload filePath, ClientAction.metadataInsert record])
        else
          (UploadResult.insertFailed,
           [ClientAction.storageUpload filePath, ClientAction.metadataInsert record])
      else (UploadResult.uploadFailed, [ClientAction.storageUpload filePath])

/-- The backend state `deletePhoto` acts on: the keys present in the
`photos` storage bucket and the rows of `public.photos`. -/
structure ServerState where
  storedPaths : List String
  photoRows : List PhotoRow
deriving DecidableEq

/-- Everything observable after a `deletePhoto` call: the backend state,
the client's displayed photo list, the backend calls issued in order, and
whether the operation reached the success toast. -/
structure DeleteOutcome where
  server : ServerState
  photosShown : List ClientPhoto
  actions : List ClientAction
  success : Bool
deriving DecidableEq

/-- `deletePhoto` (Gallery component): first `storage.remove([file_path])`;
a failure there throws, so the metadata delete is never attempted and the
displayed list is untouched.  Otherwise `delete().eq("id", photo.id)` on
`public.photos`; a failure there throws after the stored file is already
gone.  Only when both succeed is the displayed list filtered.  `storageOk`
and `dbOk` are the outcomes of the two backend calls. -/
def deletePhoto (server : ServerState) (photos : List ClientPhoto)
    (photo : ClientPhoto) (storageOk dbOk : Bool) : DeleteOutcome :=
  if storageOk then
    let server1 : ServerState :=
      ⟨server.storedPaths.filter fun p => ¬ p == photo.file_path, server.photoRows⟩
    if dbOk then
      ⟨⟨server1.storedPaths, server1.photoRows.filter fun r => ¬ r.id == photo.id⟩,
       photos.filter fun p => ¬ p.id == photo.id,
       [ClientAction.storageRemove photo.file_path,
        ClientAction.metadataDelete photo.id], true⟩
    else
      ⟨server1, photos,
       [ClientAction.storageRemove photo.file_path,
        ClientAction.metadataDelete photo.id], false⟩
  else
    ⟨server, photos, [ClientAction.storageRemove photo.file_path], false⟩

/-- `fetchPhotos` (Gallery component): `select("*")` on `public.photos`
with `order("created_at", { ascending: false })`.  The query names no user
filter; row-level security applies the SELECT policy to every row before
the ordering. -/
def fetchPhotos (rows : List PhotoRow) (uid : String) : List PhotoRow :=
  (rows.filter fun r => rlsAllows photosPolicies Op.select (some uid) r).mergeSort
    fun a b => decide (b.created_at ≤ a.created_at)

/-! ### Theorems -/

/-- C1: for distinct users `u1 ≠ u2`, a request by `u1` to SELECT, UPDATE
or DELETE a `profiles` row owned by `u2`, or to SELECT, INSERT-as or
DELETE a `photos` row owned by `u2`, is denied by row-level security:
every policy on the two tables requires `auth.uid() = user_id`, and where
no policy exists the default is deny. -/
theorem cross_user_table_access_denied (u1 u2 : String) (h : u1 ≠ u2) :
    (∀ row : ProfileRow, row.user_id = u2 →
      rlsAllows profilesPolicies Op.select (some u1) row = false ∧
      rlsAllows profilesPolicies Op.update (some u1) row = false ∧
      rlsAllows profilesPolicies Op.delete (some u1) row = false) ∧
    (∀ row : PhotoRow, row.user_id = u2 →
      rlsAllows photosPolicies Op.select (some u1) row = false ∧
      rlsAllows photosPolicies Op.insert (some u1) row = false ∧
      rlsAllows photosPolicies Op.delete (some u1) row = false) := by
  constructor <;> intro row hrow <;>
    simp [rlsAllows, profilesPolicies, photosPolicies, uidEq, hrow, h]

/-- Witness for C1 at `u1 = "alice"`, `u2 = "bob"`. -/
theorem cross_user_table_access_denied_witness :
    ("alice" : String) ≠ "bob" ∧
    rlsAllows profilesPolicies Op.select (some "alice")
      (ProfileRow.mk "p" "bob" none 0) = false :=
  ⟨by decide,
   ((cross_user_table_access_denied "alice" "bob" (by decide)).1
     (ProfileRow.mk "p" "bob" none 0) rfl).1⟩

/-- C2: for distinct users `u1 ≠ u2`, `u1` can neither INSERT nor DELETE a
`storage.objects` row of the `photos` bucket whose key's first path
segment is `u2` (both policies require `auth.uid()::text` to equal that
segment), while SELECT on any object of the `photos` bucket is allowed for
every caller, authenticated or not, through `Public can view photos`. -/
theorem storage_cross_user_write_denied_public_read (u1 u2 : String) (h : u1 ≠ u2) :
    (∀ o : StorageObject, o.bucket_id = "photos" → firstFolder o.name = some u2 →
      rlsAllows storageObjectsPolicies Op.insert (some u1) o = false ∧
      rlsAllows storageObjectsPolicies Op.delete (some u1) o = false) ∧
    (∀ (uid : Option String) (o : StorageObject), o.bucket_id = "photos" →
      rlsAllows storageObjectsPolicies Op.select uid o = true) := by
  constructor
  · intro o hb hf
    simp [rlsAllows, storageObjectsPolicies, uidEqText, hb, hf, h]
  · intro uid o hb
    simp [rlsAllows, storageObjectsPolicies, hb]

/-- Witness for C2 at `u1 = "alice"`, `u2 = "bob"`, key `bob/f.png`. -/
theorem storage_cross_user_write_denied_public_read_witness :
    ("alice" : String) ≠ "bob" ∧
    (StorageObject.mk "photos" "bob/f.png").bucket_id = "photos" ∧
    firstFolder (StorageObject.mk "photos" "bob/f.png").name = some "bob" ∧
    rlsAllows storageObjectsPolicies Op.insert (some "alice")
      (StorageObject.mk "photos" "bob/f.png") = false ∧
    rlsAllows storageObjectsPolicies Op.select none
      (StorageObject.mk "photos" "bob/f.png") = true :=
  ⟨by decide, rfl, by decide,
   ((storage_cross_user_write_denied_public_read "alice" "bob" (by decide)).1
     (StorageObject.mk "photos" "bob/f.png") rfl (by decide)).1,
   (storage_cross_user_write_denied_public_read "alice" "bob" (by decide)).2 none
     (StorageObject.mk "photos" "bob/f.png") rfl⟩

/-- C4: the `Users can insert own photos` policy checks only
`auth.uid() = user_id`, so an authenticated caller (here `alice`) can
insert a `photos` row whose `file_path` first segment (`bob`) is not the
caller's identifier. -/
theorem photos_insert_ignores_file_path :
    rlsAllows photosPolicies Op.insert (some "alice")
      (PhotoRow.mk "p1" "alice" "f.png" "bob/f.png" (some 3) 0) = true ∧
    firstFolder "bob/f.png" = some "bob" ∧
    firstFolder "bob/f.png" ≠ some "alice" := by
  refine ⟨by decide, by decide, by decide⟩

/-- C5: neither `public.photos` nor `storage.objects` declares an UPDATE
policy, so with row-level security enabled an UPDATE on either resource is
denied for every caller, owner included. -/
theorem no_update_policy_photos_storage (uid : Option String) :
    (∀ row : PhotoRow, rlsAllows photosPolicies Op.update uid row = false) ∧
    (∀ o : StorageObject, rlsAllows storageObjectsPolicies Op.update uid o = false) := by
  constructor <;> intro x <;> rfl

/-- C3: a successful user creation leaves exactly one `profiles` row for
the new user, carrying the user's identifier and email; a failure of the
trigger's profile insert fails the user creation as a whole; and the
insert the trigger performs would be denied by the ordinary INSERT policy
for the provisioning principal (no authenticated user), so it relies on
`SECURITY DEFINER` elevation. -/
theorem createUser_provisions_one_profile (db : DBState) (u : AuthUser)
    (pid : String) (now : Nat) :
    (∀ db', createUser db u pid now = some db' →
      db'.profiles.filter (fun p => p.user_id == u.id) =
        [ProfileRow.mk pid u.id u.email now]) ∧
    (handle_new_user db.profiles u pid now = none →
      createUser db u pid now = none) ∧
    rlsAllows profilesPolicies Op.insert none
      (ProfileRow.mk pid u.id u.email now) = false := by
  refine ⟨?_, ?_, rfl⟩
  · intro db' hdb
    unfold createUser at hdb
    cases hh : handle_new_user db.profiles u pid now with
    | none => rw [hh] at hdb; exact absurd hdb (by simp)
    | some ps =>
      rw [hh] at hdb
      unfold handle_new_user at hh
      by_cases hany : db.profiles.any fun p => p.user_id == u.id
      · simp [hany] at hh
      · simp only [hany, if_neg, Bool.not_eq_true] at hh
        simp only [Option.some.injEq] at hdb hh
        subst hdb
        simp only [← hh, List.filter_append]
        rw [List.filter_eq_nil_iff.mpr, List.nil_append]
        · simp
        · have hall : ∀ x ∈ db.profiles, ¬ x.user_id = u.id := by simpa using hany
          intro a ha
          simpa using hall a ha
  · intro hnone
    unfold createUser
    rw [hnone]

/-- Witness for C3: creating user `u1` in an empty database provisions
exactly the one matching profile row. -/
theorem createUser_provisions_one_profile_witness :
    createUser (DBState.mk [] []) (AuthUser.mk "u1" (some "a@b")) "p1" 7 =
      some (DBState.mk [AuthUser.mk "u1" (some "a@b")]
        [ProfileRow.mk "p1" "u1" (some "a@b") 7]) ∧
    (DBState.mk [AuthUser.mk "u1" (some "a@b")]
        [ProfileRow.mk "p1" "u1" (some "a@b") 7]).profiles.filter
      (fun p => p.user_id == (AuthUser.mk "u1" (some "a@b")).id) =
      [ProfileRow.mk "p1" "u1" (some "a@b") 7] :=
  ⟨by decide,
   (createUser_provisions_one_profile (DBState.mk [] [])
       (AuthUser.mk "u1" (some "a@b")) "p1" 7).1
     (DBState.mk [AuthUser.mk "u1" (some "a@b")]
       [ProfileRow.mk "p1" "u1" (some "a@b") 7]) (by decide)⟩

/-- C6: for an accepted upload (image type, size within bound) the client
uploads the binary to `{userId}/{Date.now()}.{ext}` and, exactly when that
upload succeeds, issues exactly one metadata insert whose `file_path` is
that path, whose `user_id` is the owner, and whose `file_name` and
`file_size` are the file's original name and size; when the binary upload
fails no metadata insert is attempted. -/
theorem uploadFile_two_step_protocol (uid : String) (f : File) (now : Nat)
    (insertOk : Bool) (himg : strStartsWith f.type "image/" = true)
    (hsize : f.size ≤ 10 * 1024 * 1024) :
    (uploadFile (some uid) f now true insertOk).2 =
      [ClientAction.storageUpload (uploadPath uid now f.name),
       ClientAction.metadataInsert
         (PhotoInsert.mk uid f.name (uploadPath uid now f.name) f.size)] ∧
    (uploadFile (some uid) f now false insertOk).2 =
      [ClientAction.storageUpload (uploadPath uid now f.name)] := by
  have hns : ¬ f.size > 10 * 1024 * 1024 := Nat.not_lt.mpr hsize
  constructor <;> · unfold uploadFile; cases insertOk <;> simp [himg, hns]

/-- Witness for C6 at a 100-byte `cat.png` of type `image/png`. -/
theorem uploadFile_two_step_protocol_witness :
    strStartsWith "image/png" "image/" = true ∧
    (100 ≤ 10 * 1024 * 1024) ∧
    ((uploadFile (some "u1") (File.mk "cat.png" "image/png" 100) 42 true true).2 =
      [ClientAction.storageUpload (uploadPath "u1" 42 "cat.png"),
       ClientAction.metadataInsert
         (PhotoInsert.mk "u1" "cat.png" (uploadPath "u1" 42 "cat.png") 100)] ∧
     (uploadFile (some "u1") (File.mk "cat.png" "image/png" 100) 42 false true).2 =
      [ClientAction.storageUpload (uploadPath "u1" 42 "cat.png")]) :=
  ⟨by decide, by decide,
   uploadFile_two_step_protocol "u1" (File.mk "cat.png" "image/png" 100) 42 true
     (by decide) (by decide)⟩

/-- C8: with a user signed in, `uploadFile` rejects a file with no network
call issued if and only if the file's MIME type does not start with
`image/` or its size exceeds `10 * 1024 * 1024` bytes; whenever it
rejects, the list of backend calls issued is empty. -/
theorem uploadFile_validation_boundary (uid : String) (f : File) (now : Nat)
    (uploadOk insertOk : Bool) :
    (((uploadFile (some uid) f now uploadOk insertOk).1 = UploadResult.rejectedNotImage ∨
      (uploadFile (some uid) f now uploadOk insertOk).1 = UploadResult.rejectedTooLarge) ↔
      (strStartsWith f.type "image/" = false ∨ f.size > 10 * 1024 * 1024)) ∧
    (((uploadFile (some uid) f now uploadOk insertOk).1 = UploadResult.rejectedNotImage ∨
      (uploadFile (some uid) f now uploadOk insertOk).1 = UploadResult.rejectedTooLarge) →
      (uploadFile (some uid) f now uploadOk insertOk).2 = []) := by
  unfold uploadFile
  by_cases himg : strStartsWith f.type "image/"
  · by_cases hsize : f.size > 10 * 1024 * 1024
    · simp [himg, hsize]
    · cases uploadOk <;> cases insertOk <;> simp [himg, hsize]
  · simp [himg]

/-- Witness for C8: an 11 MB (`11534336`-byte) non-image file is rejected
with no backend call. -/
theorem uploadFile_validation_boundary_witness :
    ((uploadFile (some "u1") (File.mk "a.txt" "text/plain" 11534336) 0 true true).1 =
       UploadResult.rejectedNotImage ∨
     (uploadFile (some "u1") (File.mk "a.txt" "text/plain" 11534336) 0 true true).1 =
       UploadResult.rejectedTooLarge) ∧
    (uploadFile (some "u1") (File.mk "a.txt" "text/plain" 11534336) 0 true true).2 = [] :=
  ⟨Or.inl (by decide),
   (uploadFile_validation_boundary "u1" (File.mk "a.txt" "text/plain" 11534336)
       0 true true).2 (Or.inl (by decide))⟩

/-- C7: `deletePhoto` always issues the storage removal first; when the
removal succeeded it then issues exactly one metadata delete and nothing
else; and when that metadata delete fails after the file was removed, the
`photos` rows are untouched while the stored path is gone — a dangling
metadata record pointing at a missing file, with no further
(reconciliation or retry) calls issued. -/
theorem deletePhoto_file_first_dangling_metadata (server : ServerState)
    (photos : List ClientPhoto) (photo : ClientPhoto) :
    (∀ storageOk dbOk : Bool,
      (deletePhoto server photos photo storageOk dbOk).actions.head? =
        some (ClientAction.storageRemove photo.file_path)) ∧
    (∀ dbOk : Bool,
      (deletePhoto server photos photo true dbOk).actions =
        [ClientAction.storageRemove photo.file_path,
         ClientAction.metadataDelete photo.id]) ∧
    (deletePhoto server photos photo true false).server.photoRows = server.photoRows ∧
    photo.file_path ∉ (deletePhoto server photos photo true false).server.storedPaths ∧
    (deletePhoto server photos photo true false).success = false := by
  refine ⟨?_, ?_, ?_, ?_, ?_⟩
  · intro storageOk dbOk; cases storageOk <;> cases dbOk <;> simp [deletePhoto]
  · intro dbOk; cases dbOk <;> simp [deletePhoto]
  · simp [deletePhoto]
  · simp [deletePhoto, List.mem_filter]
  · simp [deletePhoto]

/-- C10: when the storage removal fails, `deletePhoto` issues no metadata
delete, leaves the backend state and the displayed photo list unchanged,
and reports failure (a toast) only. -/
theorem deletePhoto_storage_failure_leaves_state (server : ServerState)
    (photos : List ClientPhoto) (photo : ClientPhoto) (dbOk : Bool) :
    (deletePhoto server photos photo false dbOk).actions =
      [ClientAction.storageRemove photo.file_path] ∧
    (ClientAction.metadataDelete photo.id ∉
      (deletePhoto server photos photo false dbOk).actions) ∧
    (deletePhoto server photos photo false dbOk).photosShown = photos ∧
    (deletePhoto server photos photo false dbOk).server = server ∧
    (deletePhoto server photos photo false dbOk).success = false := by
  simp [deletePhoto]

/-- SELECT visibility on `public.photos` for an authenticated caller is
exactly ownership of the row. -/
theorem rls_select_photos_eq (uid : String) (r : PhotoRow) :
    rlsAllows photosPolicies Op.select (some uid) r = (r.user_id == uid) := by
  simp only [rlsAllows, photosPolicies, List.any_cons, List.any_nil, uidEq,
    Bool.or_false]
  by_cases h : uid = r.user_id
  · simp [h]
  · have h2 : ¬ r.user_id = uid := fun he => h he.symm
    have hf1 : (uid == r.user_id) = false := beq_eq_false_iff_ne.mpr h
    have hf2 : (r.user_id == uid) = false := beq_eq_false_iff_ne.mpr h2
    simp [hf1, hf2]

/-- C9: `fetchPhotos` returns exactly the caller's `photos` rows (the
unfiltered `select("*")` is cut down by the SELECT policy) ordered by
`created_at` descending. -/
theorem fetchPhotos_owner_rows_desc (rows : List PhotoRow) (uid : String)
    (_hne : rows.filter (fun r => r.user_id == uid) ≠ []) :
    (fetchPhotos rows uid).Perm (rows.filter fun r => r.user_id == uid) ∧
    (fetchPhotos rows uid).Sorted (fun a b => b.created_at ≤ a.created_at) := by
  have hfil : (rows.filter fun r => rlsAllows photosPolicies Op.select (some uid) r) =
      rows.filter fun r => r.user_id == uid :=
    List.filter_congr fun a _ => rls_select_photos_eq uid a
  constructor
  · unfold fetchPhotos
    rw [hfil]
    exact List.mergeSort_perm _ _
  · unfold fetchPhotos
    have hs := @List.sorted_mergeSort PhotoRow
      (fun a b => decide (b.created_at ≤ a.created_at))
      (fun a b c h1 h2 => by
        simp only [decide_eq_true_eq] at h1 h2 ⊢
        exact Nat.le_trans h2 h1)
      (fun a b => by
        simp only [Bool.or_eq_true, decide_eq_true_eq]
        exact Nat.le_total b.created_at a.created_at)
      (rows.filter fun r => rlsAllows photosPolicies Op.select (some uid) r)
    exact List.Pairwise.imp (fun h => of_decide_eq_true h) hs

/-- Witness for C9 on a three-row table holding two rows of `u1` and one
of `u2`. -/
theorem fetchPhotos_owner_rows_desc_witness :
    ([PhotoRow.mk "a" "u1" "f" "u1/f" none 1, PhotoRow.mk "b" "u2" "g" "u2/g" none 5,
      PhotoRow.mk "c" "u1" "h" "u1/h" none 9].filter
        (fun r => r.user_id == "u1") ≠ []) ∧
    ((fetchPhotos [PhotoRow.mk "a" "u1" "f" "u1/f" none 1,
        PhotoRow.mk "b" "u2" "g" "u2/g" none 5,
        PhotoRow.mk "c" "u1" "h" "u1/h" none 9] "u1").Perm
      ([PhotoRow.mk "a" "u1" "f" "u1/f" none 1, PhotoRow.mk "b" "u2" "g" "u2/g" none 5,
        PhotoRow.mk "c" "u1" "h" "u1/h" none 9].filter fun r => r.user_id == "u1") ∧
     (fetchPhotos [PhotoRow.mk "a" "u1" "f" "u1/f" none 1,
        PhotoRow.mk "b" "u2" "g" "u2/g" none 5,
        PhotoRow.mk "c" "u1" "h" "u1/h" none 9] "u1").Sorted
       fun a b => b.created_at ≤ a.created_at) :=
  ⟨by decide,
   fetchPhotos_owner_rows_desc
     [PhotoRow.mk "a" "u1" "f" "u1/f" none 1, PhotoRow.mk "b" "u2" "g" "u2/g" none 5,
      PhotoRow.mk "c" "u1" "h" "u1/h" none 9] "u1" (by decide)⟩

end PhotoVault
